import Mathlib

/-!
Verification development for the `pushsync` package of the bee repository.

The package implements push-synchronization of content-addressed chunks:
a worker loop drains pending chunks from storage and sends each to the
closest peer; an inbound-stream handler persists a delivered chunk, sends
a receipt and consults routing for the next hop; a shared retry map keyed
by chunk address tracks attempt counts; `Close` closes the quit channel.

The Go code is embedded shallowly: each function becomes a pure Lean
function from an explicit environment (the behaviour of the external
collaborators: storage, routing, transport) and explicit state (the retry
map, the worker-loop locals) to a result record collecting the function's
return value and its observable effects (messages written, storage calls,
metric increments, timer resets). Byte strings are `List Nat`; durations
are naturals counted in milliseconds.
-/

namespace Pushsync

/-- Byte strings (chunk addresses and payloads). -/
abbrev Bytes := List Nat

/-- Go `swarm.Chunk`: an address plus a data payload. -/
structure Chunk where
  address : Bytes
  data : Bytes
  deriving DecidableEq, Repr

/-- Wire message `pb.Delivery{Address, Data}`. -/
structure Delivery where
  address : Bytes
  data : Bytes
  deriving DecidableEq, Repr

/-- Wire message `pb.Receipt{Address}`.  The Go zero value
`var receipt pb.Receipt` has `Address = nil`, modelled as `[]`. -/
structure Receipt where
  address : Bytes
  deriving DecidableEq, Repr

/-- The zero value of `swarm.Address` (what `ClosestPeer` returns as its
first component alongside an error). -/
def zeroAddress : Bytes := []

/-- Package constant `MaxRetries = 3` (`// No of time to retry sending the chunk`). -/
def MaxRetries : Nat := 3

/-- Package constant `timeToWaitForReceipt = 2 * time.Second`, in milliseconds. -/
def timeToWaitForReceipt : Nat := 2000

/-- Package constant `retryInterval = 10 * time.Second`, in milliseconds. -/
def retryInterval : Nat := 10000

/-! ### The retry map `ps.retryChunks : map[string]int`

Modelled as an association list with Go map semantics: lookup finds the
unique binding, insert overwrites, delete removes.  All accesses in the
source are guarded by `retryChunksMu`, so one invocation sees and leaves
a single coherent map value; the embedding threads that value explicitly. -/

/-- Association-list maps from addresses to retry counts. -/
abbrev RetryMap := List (Bytes × Nat)

/-- Go map read `m[k]` with its `ok` flag collapsed into `Option`. -/
def mapLookup : RetryMap → Bytes → Option Nat
  | [], _ => none
  | (k, v) :: rest, a => if k = a then some v else mapLookup rest a

/-- Go `delete(m, k)`. -/
def mapErase : RetryMap → Bytes → RetryMap
  | [], _ => []
  | (k, v) :: rest, a => if k = a then mapErase rest a else (k, v) :: mapErase rest a

/-- Go map write `m[k] = v` (overwrite semantics). -/
def mapInsert (m : RetryMap) (a : Bytes) (v : Nat) : RetryMap :=
  (a, v) :: mapErase m a

theorem mapLookup_mapErase_self (m : RetryMap) (a : Bytes) :
    mapLookup (mapErase m a) a = none := by
  induction m with
  | nil => rfl
  | cons kv rest ih =>
    obtain ⟨k, v⟩ := kv
    by_cases h : k = a
    · simp [mapErase, h, ih]
    · simp [mapErase, mapLookup, h, ih]

theorem mapLookup_mapInsert_self (m : RetryMap) (a : Bytes) (v : Nat) :
    mapLookup (mapInsert m a v) a = some v := by
  simp [mapInsert, mapLookup]

/-! ### `sendChunkAndReceiveReceipt` (source lines 226-276)

The environment fixes, for this one invocation, how the external
collaborators behave: whether `NewStream` fails, how long the transport
takes to complete the `Delivery` write and to produce the `Receipt`, and
what the read returns.  Per the transport contract, streams support a
per-write deadline: `WriteMsgWithTimeout(d, msg)` fails with a timeout
error when the write takes longer than `d`, and `ReadMsg` has no deadline
parameter, so it simply waits however long the reply takes. -/

/-- Behaviour of the collaborators during one `sendChunkAndReceiveReceipt` call.
`writeDelayMs`/`readDelayMs` are the times the transport needs to complete
the `Delivery` write and to deliver the `Receipt` reply. -/
structure SendEnv where
  newStreamErr : Option Nat
  writeDelayMs : Nat
  writeErr : Option Nat
  readDelayMs : Nat
  readResult : Except Nat Receipt
  deriving Repr

/-- The error values `sendChunkAndReceiveReceipt` can return. -/
inductive SendErr where
  /-- `fmt.Errorf("new stream: %w", err)` -/
  | newStream (e : Nat)
  /-- `fmt.Errorf("max retries exhausted ", ...)` -/
  | maxRetriesExhausted
  /-- `WriteMsgWithTimeout` deadline exceeded -/
  | writeTimeout
  /-- other `WriteMsgWithTimeout` failure -/
  | write (e : Nat)
  /-- `ReadMsg` failure -/
  | read (e : Nat)
  deriving DecidableEq, Repr

/-- Result and observable effects of one `sendChunkAndReceiveReceipt` call. -/
structure SendResult where
  /-- the retry map after the call -/
  retryChunks : RetryMap
  /-- whether `NewStream` succeeded, i.e. a stream was opened -/
  streamOpened : Bool
  /-- the peer the stream was opened to, when it was -/
  openedTo : Option Bytes
  /-- whether the deferred `streamer.Close()` ran -/
  streamClosed : Bool
  /-- `Delivery` messages actually written to the stream -/
  deliveriesSent : List Delivery
  /-- increments of `RetriesExhaustedCounter` during this call -/
  retriesExhaustedInc : Nat
  /-- increments of `ChunksSentCounter` during this call -/
  chunksSentInc : Nat
  /-- wall-clock duration of the call, in milliseconds -/
  elapsedMs : Nat
  /-- the returned error (`none` = `nil`) -/
  err : Option SendErr
  deriving DecidableEq, Repr

/-- The write/read phase of `sendChunkAndReceiveReceipt` (source lines
252-275), entered after the retry-map bookkeeping with map value `retry`:
`WriteMsgWithTimeout(timeToWaitForReceipt, &pb.Delivery{...})`, then
`ReadMsg(&receipt)` with no deadline. -/
def sendPhase (retry : RetryMap) (env : SendEnv) (peer : Bytes) (ch : Chunk) : SendResult :=
  if timeToWaitForReceipt < env.writeDelayMs then
    { retryChunks := retry, streamOpened := true, openedTo := some peer,
      streamClosed := true, deliveriesSent := [],
      retriesExhaustedInc := 0, chunksSentInc := 0,
      elapsedMs := timeToWaitForReceipt, err := some .writeTimeout }
  else
    match env.writeErr with
    | some e =>
      { retryChunks := retry, streamOpened := true, openedTo := some peer,
        streamClosed := true, deliveriesSent := [],
        retriesExhaustedInc := 0, chunksSentInc := 0,
        elapsedMs := env.writeDelayMs, err := some (.write e) }
    | none =>
      let d : Delivery := { address := ch.address, data := ch.data }
      match env.readResult with
      | .error e =>
        { retryChunks := retry, streamOpened := true, openedTo := some peer,
          streamClosed := true, deliveriesSent := [d],
          retriesExhaustedInc := 0, chunksSentInc := 1,
          elapsedMs := env.writeDelayMs + env.readDelayMs, err := some (.read e) }
      | .ok _ =>
        { retryChunks := retry, streamOpened := true, openedTo := some peer,
          streamClosed := true, deliveriesSent := [d],
          retriesExhaustedInc := 0, chunksSentInc := 1,
          elapsedMs := env.writeDelayMs + env.readDelayMs, err := none }

/-- Embedding of `sendChunkAndReceiveReceipt` (source lines 226-276).
The call first opens a stream to `peer`; only then does it consult the
retry map: an existing count strictly greater than `MaxRetries` deletes
the entry, bumps the exhaustion counter and returns an error; an existing
count not above `MaxRetries` increments only the local variable
`noOfRetries` (the map is not written back); a missing entry is created
with value `0`.  Then the delivery is written under the per-write
deadline and one receipt is read with no deadline.  Neither the success
path nor the failure paths touch the retry map again. -/
def sendChunkAndReceiveReceipt (retry0 : RetryMap) (env : SendEnv)
    (peer : Bytes) (ch : Chunk) : SendResult :=
  match env.newStreamErr with
  | some e =>
    { retryChunks := retry0, streamOpened := false, openedTo := none,
      streamClosed := false, deliveriesSent := [],
      retriesExhaustedInc := 0, chunksSentInc := 0,
      elapsedMs := 0, err := some (.newStream e) }
  | none =>
    match mapLookup retry0 ch.address with
    | some noOfRetries =>
      if MaxRetries < noOfRetries then
        { retryChunks := mapErase retry0 ch.address, streamOpened := true,
          openedTo := some peer, streamClosed := true, deliveriesSent := [],
          retriesExhaustedInc := 1, chunksSentInc := 0,
          elapsedMs := 0, err := some .maxRetriesExhausted }
      else
        sendPhase retry0 env peer ch
    | none =>
      sendPhase (mapInsert retry0 ch.address 0) env peer ch

/-! ### The delivery handler (source lines 91-141)

One invocation per inbound stream.  The environment fixes what the read
of the `Delivery` yields, whether `storer.Put`, the receipt write and
`storer.Set` fail, and what `peerSuggester.ClosestPeer` answers.  The
result records the handler's return value and every observable effect:
chunks passed to `Put`, receipts written, deliveries forwarded, addresses
passed to `Set(ModeSetSyncPush, ·)`. -/

/-- Outcome of `r.ReadMsg(&ch)` at the top of the handler. -/
inductive ReadDeliveryResult where
  | msg (d : Delivery)
  | eof
  | fail (e : Nat)
  deriving DecidableEq, Repr

/-- Outcome of `peerSuggester.ClosestPeer(addr)`: a peer, the sentinel
`topology.ErrWantSelf`, or some other error. -/
inductive PeerResult where
  | peer (p : Bytes)
  | wantSelf
  | fail (e : Nat)
  deriving DecidableEq, Repr

/-- Behaviour of the collaborators during one handler invocation. -/
structure HandlerEnv where
  readDelivery : ReadDeliveryResult
  putErr : Option Nat
  writeReceiptErr : Option Nat
  closestPeer : Bytes → PeerResult
  setErr : Option Nat

/-- The error values the handler can return (`none` = `nil`). -/
inductive HandlerErr where
  | readDelivery (e : Nat)
  | put (e : Nat)
  | writeReceipt (e : Nat)
  | closestPeer (e : Nat)
  | set (e : Nat)
  deriving DecidableEq, Repr

/-- Result and observable effects of one handler invocation. -/
structure HandlerResult where
  /-- chunks passed to `storer.Put(ctx, ModePutSync, ·)` -/
  putCalls : List Chunk
  /-- receipts written back on the stream -/
  receiptsSent : List Receipt
  /-- deliveries the handler forwarded to another peer -/
  forwarded : List Delivery
  /-- addresses passed to `storer.Set(ctx, ModeSetSyncPush, ·)` -/
  setCalls : List Bytes
  /-- increments of `TotalChunksSynced` during this invocation -/
  totalChunksSyncedInc : Nat
  /-- the handler's return value -/
  err : Option HandlerErr
  /-- the deferred `stream.Close()` (runs on every path) -/
  streamClosed : Bool
  deriving DecidableEq, Repr

/-- Embedding of the handler (source lines 91-141).  It reads one
`Delivery` (EOF returns `nil`), persists the chunk, writes the Go
zero-valued receipt `var receipt pb.Receipt` (empty address), queries
routing for the chunk's own address, and: on `ErrWantSelf` returns `nil`;
on another routing error returns it; when a peer is found it only marks
the chunk synced via `storer.Set` and returns that call's error — no
forwarding call appears in the function body (the `peer` variable is
unused). -/
def handler (env : HandlerEnv) : HandlerResult :=
  match env.readDelivery with
  | .eof =>
    { putCalls := [], receiptsSent := [], forwarded := [], setCalls := [],
      totalChunksSyncedInc := 0, err := none, streamClosed := true }
  | .fail e =>
    { putCalls := [], receiptsSent := [], forwarded := [], setCalls := [],
      totalChunksSyncedInc := 0, err := some (.readDelivery e), streamClosed := true }
  | .msg d =>
    match env.putErr with
    | some e =>
      { putCalls := [{ address := d.address, data := d.data }],
        receiptsSent := [], forwarded := [], setCalls := [],
        totalChunksSyncedInc := 0, err := some (.put e), streamClosed := true }
    | none =>
      match env.writeReceiptErr with
      | some e =>
        { putCalls := [{ address := d.address, data := d.data }],
          receiptsSent := [], forwarded := [], setCalls := [],
          totalChunksSyncedInc := 0, err := some (.writeReceipt e), streamClosed := true }
      | none =>
        match env.closestPeer d.address with
        | .wantSelf =>
          { putCalls := [{ address := d.address, data := d.data }],
            receiptsSent := [{ address := [] }], forwarded := [],
            setCalls := [], totalChunksSyncedInc := 0, err := none, streamClosed := true }
        | .fail e =>
          { putCalls := [{ address := d.address, data := d.data }],
            receiptsSent := [{ address := [] }], forwarded := [],
            setCalls := [], totalChunksSyncedInc := 0,
            err := some (.closestPeer e), streamClosed := true }
        | .peer _ =>
          { putCalls := [{ address := d.address, data := d.data }],
            receiptsSent := [{ address := [] }], forwarded := [],
            setCalls := [d.address], totalChunksSyncedInc := 1,
            err := (env.setErr).map .set, streamClosed := true }

/-! ### The worker loop `chunksWorker` (source lines 145-221)

The loop is a `select` over three sources: the subscription channel
(either a chunk or channel close), the timer, and the quit channel.  It
is embedded as a step function on the loop's local state, driven by an
event; effects are collected in a list. -/

/-- One event the `select` can wake up on. -/
inductive WorkerEvent where
  /-- `case ch, more := <-chunks` with `more = true` -/
  | chunkReceived (ch : Chunk)
  /-- `case ch, more := <-chunks` with `more = false` -/
  | feedClosed
  /-- `case <-timer.C` -/
  | timerFired
  /-- `case <-ps.quit` -/
  | quit
  deriving DecidableEq, Repr

/-- The loop's local state: whether `chunks` has been set to `nil`,
whether `unsubscribe != nil`, the `chunksInBatch` counter (a Go `int`
initialised to `-1` and never reset), and whether the loop returned. -/
structure WorkerState where
  chunksNil : Bool
  subscribed : Bool
  chunksInBatch : Int
  stopped : Bool
  deriving DecidableEq, Repr

/-- Loop state right after `chunksWorker` starts: no subscription yet,
`chunksInBatch = -1`, the bootstrap timer armed with duration `0`. -/
def workerInit : WorkerState :=
  { chunksNil := true, subscribed := false, chunksInBatch := -1, stopped := false }

/-- Observable effects of the worker loop. -/
inductive WorkerEffect where
  /-- an invocation of `sendChunkAndReceiveReceipt(ctx, peer, ch)` -/
  | sendChunk (peer : Bytes) (ch : Chunk)
  /-- a call `storer.Set(ctx, ModeSetSyncPush, addr)` -/
  | setSynced (addr : Bytes)
  /-- a `logger.Error*` call -/
  | logError
  /-- `timer.Reset(durMs)` -/
  | timerReset (durMs : Nat)
  /-- `storer.SubscribePush(ctx)` -/
  | subscribe
  /-- `unsubscribe()` -/
  | unsubscribe
  deriving DecidableEq, Repr

/-- Behaviour of the collaborators while the worker handles chunks:
routing answers, `storer.Set` failures and `sendChunkAndReceiveReceipt`
failures, per chunk address. -/
structure WorkerEnv where
  closestPeer : Bytes → PeerResult
  setErr : Bytes → Option Nat
  sendErr : Bytes → Option Nat

/-- The body of `case ch, more := <-chunks` with `more = true` (source
lines 169-193).  After `chunksInBatch++` the worker queries routing; on
`ErrWantSelf` it marks the chunk synced and continues; on any other
routing error there is no `continue`, so control falls through and
`sendChunkAndReceiveReceipt` is invoked with the zero-valued `peer`. -/
def workerHandleChunk (env : WorkerEnv) (s : WorkerState) (ch : Chunk) :
    WorkerState × List WorkerEffect :=
  let s := { s with chunksInBatch := s.chunksInBatch + 1 }
  let sendAndMark : Bytes → List WorkerEffect := fun peer =>
    match env.sendErr ch.address with
    | some _ => [.sendChunk peer ch, .logError]
    | none =>
      match env.setErr ch.address with
      | some _ => [.sendChunk peer ch, .setSynced ch.address, .logError]
      | none => [.sendChunk peer ch, .setSynced ch.address]
  match env.closestPeer ch.address with
  | .wantSelf =>
    match env.setErr ch.address with
    | some _ => (s, [.setSynced ch.address, .logError])
    | none => (s, [.setSynced ch.address])
  | .fail _ => (s, sendAndMark zeroAddress)
  | .peer p => (s, sendAndMark p)

/-- One iteration of the `chunksWorker` select loop (source lines
154-220), as a step on the loop state driven by one event. -/
def workerStep (env : WorkerEnv) (s : WorkerState) (ev : WorkerEvent) :
    WorkerState × List WorkerEffect :=
  match ev with
  | .chunkReceived ch => workerHandleChunk env s ch
  | .feedClosed =>
    let dur : Nat := if s.chunksInBatch = 0 then 500 else 0
    ({ s with chunksNil := true }, [.timerReset dur])
  | .timerFired =>
    let pre : List WorkerEffect := if s.subscribed then [.unsubscribe] else []
    ({ s with subscribed := true, chunksNil := false },
      pre ++ [.subscribe, .timerReset retryInterval])
  | .quit =>
    let pre : List WorkerEffect := if s.subscribed then [.unsubscribe] else []
    ({ s with stopped := true }, pre)

/-- Run the worker over a list of events, accumulating effects. -/
def workerRun (env : WorkerEnv) (s : WorkerState) :
    List WorkerEvent → WorkerState × List WorkerEffect
  | [] => (s, [])
  | ev :: evs =>
    let (s1, effs1) := workerStep env s ev
    let (s2, effs2) := workerRun env s1 evs
    (s2, effs1 ++ effs2)

/-! ### `Close` (source lines 84-87)

`Close` runs `close(ps.quit); return nil`.  Per Go semantics, closing an
already-closed channel panics, so the state carries whether `ps.quit` has
been closed. -/

/-- The lifecycle state of one `PushSync` instance: whether its `quit`
channel has been closed. -/
structure PushSyncLifecycle where
  quitClosed : Bool
  deriving DecidableEq, Repr

/-- State established by `New`: a fresh, open `quit` channel. -/
def newPushSyncState : PushSyncLifecycle := { quitClosed := false }

/-- What one `Close` call does: return a value, or panic. -/
inductive CloseOutcome where
  /-- the call returned this error value (`none` = `nil`) -/
  | returned (e : Option Nat)
  /-- the call panicked (`close` of a closed channel) -/
  | panicked
  deriving DecidableEq, Repr

/-- Embedding of `Close` (source lines 84-87): `close(ps.quit)` panics if
`quit` is already closed, otherwise closes it; then `return nil`. -/
def closePushSync (s : PushSyncLifecycle) : CloseOutcome × PushSyncLifecycle :=
  if s.quitClosed then (.panicked, s)
  else (.returned none, { quitClosed := true })

/-! ### Structural lemmas -/

theorem sendPhase_retryChunks (retry : RetryMap) (env : SendEnv)
    (peer : Bytes) (ch : Chunk) :
    (sendPhase retry env peer ch).retryChunks = retry := by
  unfold sendPhase
  repeat' split
  all_goals rfl

theorem sendPhase_err_ne_newStream (retry : RetryMap) (env : SendEnv)
    (peer : Bytes) (ch : Chunk) (e : Nat) :
    (sendPhase retry env peer ch).err ≠ some (.newStream e) := by
  unfold sendPhase
  repeat' split
  all_goals simp

/-! ### Concrete fixtures (the addresses and payload of the repository tests:
chunk address `7000…00`, data `"1234"`, closest peer `6000…00`) -/

/-- The 32-byte chunk address `0x7000…00` used throughout the tests. -/
def addr7000 : Bytes := 0x70 :: List.replicate 31 0

/-- The payload `"1234"` as bytes. -/
def data1234 : Bytes := [0x31, 0x32, 0x33, 0x34]

/-- The test chunk. -/
def chunk7000 : Chunk := { address := addr7000, data := data1234 }

/-- The 32-byte peer address `0x6000…00`. -/
def peer6000 : Bytes := 0x60 :: List.replicate 31 0

/-- A transfer environment where every collaborator behaves: the stream
opens, the write completes in 1 ms, the receipt arrives after 1 ms. -/
def goodSendEnv : SendEnv :=
  { newStreamErr := none, writeDelayMs := 1, writeErr := none,
    readDelayMs := 1, readResult := .ok { address := addr7000 } }

/-- A transfer environment whose `Delivery` write fails with error `7`. -/
def writeFailEnv : SendEnv :=
  { newStreamErr := none, writeDelayMs := 1, writeErr := some 7,
    readDelayMs := 0, readResult := .error 7 }

/-- A transfer environment where the write completes in 1 ms but the
receipt only arrives after 10 s. -/
def slowReadEnv : SendEnv :=
  { newStreamErr := none, writeDelayMs := 1, writeErr := none,
    readDelayMs := 10000, readResult := .ok { address := addr7000 } }

/-- Handler environment: delivery for `chunk7000` arrives, storage and the
receipt write succeed, routing returns peer `6000…00`. -/
def c1Env : HandlerEnv :=
  { readDelivery := .msg { address := addr7000, data := data1234 },
    putErr := none, writeReceiptErr := none,
    closestPeer := fun _ => .peer peer6000, setErr := none }

/-- Handler environment: delivery for `chunk7000` arrives, storage and the
receipt write succeed, routing reports `ErrWantSelf`. -/
def wantSelfEnv : HandlerEnv :=
  { readDelivery := .msg { address := addr7000, data := data1234 },
    putErr := none, writeReceiptErr := none,
    closestPeer := fun _ => .wantSelf, setErr := none }

/-- Handler environment for the receipt-contents scenario of
`TestSendChunkAndGetReceipt`: a delivery arrives at the closest node and
everything succeeds. -/
def c9Env : HandlerEnv :=
  { readDelivery := .msg { address := addr7000, data := data1234 },
    putErr := none, writeReceiptErr := none,
    closestPeer := fun _ => .wantSelf, setErr := none }

/-- Worker environment: routing fails with a generic error (code `9`),
the subsequent send fails with error `5`, `storer.Set` succeeds. -/
def routingFailEnv : WorkerEnv :=
  { closestPeer := fun _ => .fail 9, setErr := fun _ => none,
    sendErr := fun _ => some 5 }

/-- Worker environment: routing fails with a generic error (code `9`),
and the subsequent send happens to succeed. -/
def routingFailSendOkEnv : WorkerEnv :=
  { closestPeer := fun _ => .fail 9, setErr := fun _ => none,
    sendErr := fun _ => none }

/-- Worker environment where routing reports want-self and storage
succeeds (used to drive batches through the loop). -/
def wantSelfWorkerEnv : WorkerEnv :=
  { closestPeer := fun _ => .wantSelf, setErr := fun _ => none,
    sendErr := fun _ => none }

/-! ### The claims -/

/-- Claim C1.  The claim says that when routing returns a peer and both the
local persistence and the receipt write succeeded, the handler forwards
exactly one `Delivery` to that peer via `sendChunkAndReceiveReceipt` and
marks the chunk synced afterwards.  In the code the handler never forwards
anything: for every environment its list of forwarded deliveries is empty,
and on the concrete scenario (delivery for `7000…`, routing returns peer
`6000…`, all collaborators succeed) it merely marks the chunk synced and
returns `nil` — contradicting the handler's own doc comment and the
repository tests `TestForwardChunk` / `TestGetChunkAndSendReceipt`. -/
theorem handler_never_forwards :
    (∀ env : HandlerEnv, (handler env).forwarded = []) ∧
    (handler c1Env).err = none ∧
    (handler c1Env).setCalls = [addr7000] ∧
    (handler c1Env).receiptsSent.length = 1 ∧
    (handler c1Env).forwarded = [] := by
  refine ⟨?_, rfl, rfl, rfl, rfl⟩
  intro env
  unfold handler
  repeat' split
  all_goals rfl

/-- Claim C2, counterexample.  The claim says an attempt whose tracker
count is at or beyond `MaxRetries` is abandoned before any network
activity, with no stream opened.  On the code: with the count exactly at
`MaxRetries` the attempt proceeds normally (the delivery is written and
the call succeeds), and with the count beyond `MaxRetries` the attempt is
abandoned only after the stream was already opened. -/
theorem retry_at_maximum_not_abandoned :
    (sendChunkAndReceiveReceipt [(addr7000, MaxRetries)] goodSendEnv peer6000 chunk7000).err
      = none ∧
    (sendChunkAndReceiveReceipt [(addr7000, MaxRetries)] goodSendEnv peer6000 chunk7000).deliveriesSent
      = [{ address := addr7000, data := data1234 }] ∧
    (sendChunkAndReceiveReceipt [(addr7000, MaxRetries + 1)] goodSendEnv peer6000 chunk7000).streamOpened
      = true ∧
    (sendChunkAndReceiveReceipt [(addr7000, MaxRetries + 1)] goodSendEnv peer6000 chunk7000).err
      = some .maxRetriesExhausted := by
  refine ⟨rfl, rfl, rfl, rfl⟩

/-- Claim C2, amended.  When `NewStream` succeeds and the tracker entry
for the chunk's address is strictly greater than `MaxRetries`, the attempt
is abandoned after the stream was already opened: the entry is removed,
the exhaustion counter is incremented, no delivery is written, and a
RetryExhausted failure is returned (the deferred close closes the stream). -/
theorem retry_exhausted_after_stream_open (retry0 : RetryMap) (env : SendEnv)
    (peer : Bytes) (ch : Chunk) (n : Nat)
    (h1 : env.newStreamErr = none)
    (h2 : mapLookup retry0 ch.address = some n)
    (h3 : MaxRetries < n) :
    sendChunkAndReceiveReceipt retry0 env peer ch =
      { retryChunks := mapErase retry0 ch.address, streamOpened := true,
        openedTo := some peer, streamClosed := true, deliveriesSent := [],
        retriesExhaustedInc := 1, chunksSentInc := 0, elapsedMs := 0,
        err := some .maxRetriesExhausted } ∧
    mapLookup (sendChunkAndReceiveReceipt retry0 env peer ch).retryChunks ch.address = none := by
  have hmain : sendChunkAndReceiveReceipt retry0 env peer ch =
      { retryChunks := mapErase retry0 ch.address, streamOpened := true,
        openedTo := some peer, streamClosed := true, deliveriesSent := [],
        retriesExhaustedInc := 1, chunksSentInc := 0, elapsedMs := 0,
        err := some .maxRetriesExhausted } := by
    unfold sendChunkAndReceiveReceipt
    rw [h1, h2]
    simp [h3]
  refine ⟨hmain, ?_⟩
  rw [hmain]
  exact mapLookup_mapErase_self retry0 ch.address

/-- Claim C2, witness for the amended theorem: tracker entry `4` for the
test address, all collaborators behaving. -/
theorem retry_exhausted_after_stream_open_witness :
    sendChunkAndReceiveReceipt [(addr7000, 4)] goodSendEnv peer6000 chunk7000 =
      { retryChunks := mapErase [(addr7000, 4)] chunk7000.address, streamOpened := true,
        openedTo := some peer6000, streamClosed := true, deliveriesSent := [],
        retriesExhaustedInc := 1, chunksSentInc := 0, elapsedMs := 0,
        err := some .maxRetriesExhausted } ∧
    mapLookup (sendChunkAndReceiveReceipt [(addr7000, 4)] goodSendEnv peer6000 chunk7000).retryChunks
      chunk7000.address = none :=
  retry_exhausted_after_stream_open [(addr7000, 4)] goodSendEnv peer6000 chunk7000 4
    rfl (by decide) (by decide)

/-- Claim C3, counterexample.  The claim says a successful transfer leaves
no tracker entry for the address, for any number of prior failures.  On
the code a successful call leaves an entry: a first-ever attempt (no prior
failures) creates the entry with value `0` and returns success with the
entry still present, and a pre-existing entry (here `2`) survives a
successful call unchanged. -/
theorem success_leaves_retry_entry :
    (sendChunkAndReceiveReceipt [] goodSendEnv peer6000 chunk7000).err = none ∧
    mapLookup (sendChunkAndReceiveReceipt [] goodSendEnv peer6000 chunk7000).retryChunks
      addr7000 = some 0 ∧
    (sendChunkAndReceiveReceipt [(addr7000, 2)] goodSendEnv peer6000 chunk7000).err = none ∧
    mapLookup (sendChunkAndReceiveReceipt [(addr7000, 2)] goodSendEnv peer6000 chunk7000).retryChunks
      addr7000 = some 2 := by
  refine ⟨rfl, by decide, rfl, by decide⟩

/-- Claim C3, amended.  A successful `sendChunkAndReceiveReceipt` call
never clears the tracker entry for the chunk's address: afterwards the
tracker holds the prior count when an entry existed, and a freshly created
`0` otherwise. -/
theorem success_preserves_retry_entry (retry0 : RetryMap) (env : SendEnv)
    (peer : Bytes) (ch : Chunk)
    (h : (sendChunkAndReceiveReceipt retry0 env peer ch).err = none) :
    mapLookup (sendChunkAndReceiveReceipt retry0 env peer ch).retryChunks ch.address =
      some ((mapLookup retry0 ch.address).getD 0) := by
  unfold sendChunkAndReceiveReceipt at h ⊢
  cases hs : env.newStreamErr with
  | some e => rw [hs] at h; simp at h
  | none =>
    rw [hs] at h
    cases hl : mapLookup retry0 ch.address with
    | some n =>
      rw [hl] at h
      dsimp only at h ⊢
      by_cases hn : MaxRetries < n
      · rw [if_pos hn] at h; simp at h
      · rw [if_neg hn, sendPhase_retryChunks]
        simp [hl]
    | none =>
      rw [hl] at h
      dsimp only
      rw [sendPhase_retryChunks, mapLookup_mapInsert_self]
      rfl

/-- Claim C3, witness for the amended theorem: a first-ever, successful
attempt for the test chunk leaves the entry `0` behind. -/
theorem success_preserves_retry_entry_witness :
    mapLookup (sendChunkAndReceiveReceipt [] goodSendEnv peer6000 chunk7000).retryChunks
      chunk7000.address = some ((mapLookup [] chunk7000.address).getD 0) :=
  success_preserves_retry_entry [] goodSendEnv peer6000 chunk7000 (by decide)

/-- Claim C4.  The claim says a failed attempt increments the tracker
entry and persists the new count in the shared map.  On the code the
increment `noOfRetries++` only touches a local variable: concretely, with
entry `0` for the test address and a failing delivery write, the call
fails but the stored count is still `0`; and in general the count stored
after any call is never an increment of the old one — it is the old count
(entry present, not exhausted), removed (exhausted), or a fresh `0`. -/
theorem failure_does_not_persist_increment :
    ((sendChunkAndReceiveReceipt [(addr7000, 0)] writeFailEnv peer6000 chunk7000).err
      = some (.write 7) ∧
     mapLookup (sendChunkAndReceiveReceipt [(addr7000, 0)] writeFailEnv peer6000 chunk7000).retryChunks
       addr7000 = some 0) ∧
    ∀ (retry0 : RetryMap) (env : SendEnv) (peer : Bytes) (ch : Chunk),
      mapLookup (sendChunkAndReceiveReceipt retry0 env peer ch).retryChunks ch.address =
        (match env.newStreamErr, mapLookup retry0 ch.address with
         | some _, r => r
         | none, some n => if MaxRetries < n then none else some n
         | none, none => some 0) := by
  refine ⟨⟨rfl, by decide⟩, ?_⟩
  intro retry0 env peer ch
  unfold sendChunkAndReceiveReceipt
  cases hs : env.newStreamErr with
  | some e => rfl
  | none =>
    cases hl : mapLookup retry0 ch.address with
    | some n =>
      dsimp only
      by_cases hn : MaxRetries < n
      · rw [if_pos hn, if_pos hn]
        exact mapLookup_mapErase_self retry0 ch.address
      · rw [if_neg hn, if_neg hn, sendPhase_retryChunks]
        exact hl
    | none =>
      dsimp only
      rw [sendPhase_retryChunks, mapLookup_mapInsert_self]

/-- Claim C5, counterexample.  The claim says that on the want-self
terminal the handler persists the chunk, sends one receipt, forwards
nothing and marks the chunk synced.  On the code everything holds except
the last part: no `storer.Set` call is made on the want-self path. -/
theorem handler_want_self_no_sync_mark :
    (handler wantSelfEnv).putCalls = [chunk7000] ∧
    (handler wantSelfEnv).receiptsSent.length = 1 ∧
    (handler wantSelfEnv).forwarded = [] ∧
    (handler wantSelfEnv).err = none ∧
    (handler wantSelfEnv).setCalls = [] := by
  exact ⟨rfl, rfl, rfl, rfl, rfl⟩

/-- Claim C5, amended.  On an inbound delivery whose routing query reports
want-self (with storage and the receipt write succeeding), the handler
persists the chunk, sends exactly one receipt, forwards nothing, and
returns `nil` without marking the chunk synced (no `storer.Set` call). -/
theorem handler_want_self_behaviour (env : HandlerEnv) (d : Delivery)
    (h1 : env.readDelivery = .msg d) (h2 : env.putErr = none)
    (h3 : env.writeReceiptErr = none)
    (h4 : env.closestPeer d.address = .wantSelf) :
    handler env =
      { putCalls := [{ address := d.address, data := d.data }],
        receiptsSent := [{ address := [] }], forwarded := [], setCalls := [],
        totalChunksSyncedInc := 0, err := none, streamClosed := true } := by
  unfold handler
  rw [h1, h2, h3]
  simp [h4]

/-- Claim C5, witness for the amended theorem: the concrete want-self
scenario of the tests. -/
theorem handler_want_self_behaviour_witness :
    handler wantSelfEnv =
      { putCalls := [{ address := addr7000, data := data1234 }],
        receiptsSent := [{ address := [] }], forwarded := [], setCalls := [],
        totalChunksSyncedInc := 0, err := none, streamClosed := true } :=
  handler_want_self_behaviour wantSelfEnv { address := addr7000, data := data1234 }
    rfl rfl rfl rfl

/-- Claim C6.  The claim says that on a routing failure other than
want-self the worker logs and skips the chunk with no network operation.
On the code the error branch has no `continue`, so control falls through
and `sendChunkAndReceiveReceipt` is invoked with the zero-valued peer
address: concretely, with routing failing, the step's effect trace
contains the point-to-point transfer invocation `sendChunk [] chunk7000`
(followed by the log of that send's failure, or even by the synced mark
when the send happens to succeed). -/
theorem worker_routing_error_still_sends :
    workerStep routingFailEnv workerInit (.chunkReceived chunk7000) =
      ({ workerInit with chunksInBatch := 0 },
        [.sendChunk zeroAddress chunk7000, .logError]) ∧
    workerStep routingFailSendOkEnv workerInit (.chunkReceived chunk7000) =
      ({ workerInit with chunksInBatch := 0 },
        [.sendChunk zeroAddress chunk7000, .setSynced addr7000]) := by
  exact ⟨rfl, rfl⟩

/-- Claim C7.  The claim says one fixed 2 s deadline bounds the delivery
write and the receipt wait together, so a late receipt is a timeout
failure.  On the code the deadline is passed only to
`WriteMsgWithTimeout` and `ReadMsg` has no deadline: a call whose write
takes 1 ms and whose receipt arrives only after 10 s succeeds, taking
10001 ms — far beyond `timeToWaitForReceipt`. -/
theorem receipt_read_not_bounded_by_deadline :
    (sendChunkAndReceiveReceipt [] slowReadEnv peer6000 chunk7000).err = none ∧
    (sendChunkAndReceiveReceipt [] slowReadEnv peer6000 chunk7000).elapsedMs = 10001 ∧
    timeToWaitForReceipt <
      (sendChunkAndReceiveReceipt [] slowReadEnv peer6000 chunk7000).elapsedMs := by
  refine ⟨rfl, rfl, by decide⟩

/-- Claim C8.  The claim says the 500 ms debounce is scheduled exactly for
empty batches, across the whole lifetime of the loop.  On the code the
counter `chunksInBatch` starts at `-1` and is never reset per batch:
the very first batch, closing empty, restarts with delay `0` (counter is
`-1`, not `0`), while a first batch of exactly one chunk gets the 500 ms
debounce (counter reached `0`). -/
theorem debounce_counter_never_reset :
    (workerRun wantSelfWorkerEnv workerInit [.timerFired, .feedClosed]).2 =
      [.subscribe, .timerReset retryInterval, .timerReset 0] ∧
    (workerRun wantSelfWorkerEnv workerInit
        [.timerFired, .chunkReceived chunk7000, .feedClosed]).2 =
      [.subscribe, .timerReset retryInterval, .setSynced addr7000, .timerReset 500] := by
  exact ⟨rfl, rfl⟩

/-- Claim C9.  The claim says every receipt sent by the handler carries
the address of the chunk it acknowledges.  On the code the handler writes
the zero-valued `pb.Receipt`, whose address is empty: in general every
receipt the handler sends has the empty address, and concretely the
receipt sent for the delivery of chunk `7000…` does not carry `7000…` —
contradicting the repository tests `TestSendChunkAndGetReceipt` and
`TestGetChunkAndSendReceipt`, which require the echo. -/
theorem handler_receipt_address_empty :
    (∀ env : HandlerEnv,
      (handler env).receiptsSent = [] ∨
      (handler env).receiptsSent = [{ address := [] }]) ∧
    (handler c9Env).receiptsSent = [{ address := [] }] ∧
    addr7000 ≠ ([] : Bytes) := by
  refine ⟨?_, rfl, by decide⟩
  intro env
  unfold handler
  repeat' split
  all_goals simp

/-- Claim C10.  `Close` on a fresh instance returns `nil`; any `Close`
call either returns `nil` or panics (it never returns a non-nil error);
and a second `Close` on the same instance panics, because it closes the
already-closed `quit` channel. -/
theorem close_returns_nil_and_is_single_use :
    (closePushSync newPushSyncState).1 = .returned none ∧
    (closePushSync (closePushSync newPushSyncState).2).1 = .panicked ∧
    ∀ s : PushSyncLifecycle,
      (closePushSync s).1 = .returned none ∨ (closePushSync s).1 = .panicked := by
  refine ⟨rfl, rfl, ?_⟩
  intro s
  by_cases h : s.quitClosed
  · right; simp [closePushSync, h]
  · left; simp [closePushSync, h]

end Pushsync
